import Mathlib

/-!
Verification of the `k8s-scaffold-meteor` Pulumi program (TypeScript).

The program has three source files:
  * `app.ts` / its later revision — the `DemoApp` component: a Deployment,
    a HorizontalPodAutoscaler, a LoadBalancer Service, and the resolved
    application URL;
  * `gke.ts` — the `GkeCluster` component: Filestore instance,
    PersistentVolume, PersistentVolumeClaim, GKE cluster, node pool and
    the Kubernetes provider;
  * `index.ts` — the orchestrator: instantiates `GkeCluster` and one
    `DemoApp` per configured cluster target and aggregates the URLs.

Below is a shallow embedding: each resource specification the program
constructs is modelled as a Lean record, each construction as a Lean
function of the inputs the TypeScript reads (the process environment is
passed explicitly as `String → Option String`; an unset variable is
`none`).  Deferred (`pulumi.Output`) values are modelled by passing the
eventually-resolved value — e.g. the load-balancer ingress status — as an
explicit argument to the function that consumes it.
-/

namespace K8sScaffold

/-- The process environment: a variable name maps to `some value` when set,
`none` when unset (JavaScript `undefined`). -/
def Env : Type := String → Option String

/-- Opaque model of a `k8s.Provider` resource: identified by the cluster it
gives access to. -/
structure K8sProvider where
  id : String
deriving DecidableEq, Repr

/-- Options passed as the third argument of a Pulumi resource constructor.
`provider = none` models a constructor call with no options argument. -/
structure ResourceOptions where
  provider : Option K8sProvider
  parent   : Bool
deriving DecidableEq, Repr

/-- One entry of `service.status.loadBalancer.ingress`: the provider reports
the external endpoint in the `hostname` field or in the `ip` field. -/
structure LoadBalancerIngress where
  hostname : String
  ip       : String
deriving DecidableEq, Repr

/-- A container environment-variable entry `{name, value}`; `value` is
`undefined` (`none`) when the process variable is unset. -/
structure EnvVar where
  name  : String
  value : Option String
deriving DecidableEq, Repr

/-- `volumeMounts` entry of a container. -/
structure VolumeMount where
  mountPath : String
  name      : String
deriving DecidableEq, Repr

/-- A pod-spec volume backed by a persistent volume claim. -/
structure Volume where
  name      : String
  claimName : String
deriving DecidableEq, Repr

/-- A `hostAliases` entry: one IP (possibly `undefined`) and the hostnames
resolved to it. -/
structure HostAlias where
  ip        : Option String
  hostnames : List String
deriving DecidableEq, Repr

/-- The single container of the scaffold deployment (probe fields that no
claim touches are kept as the literals the source writes). -/
structure Container where
  name          : String
  image         : String
  containerPort : Int
  env           : List EnvVar
  volumeMounts  : List VolumeMount
deriving DecidableEq, Repr

/-- The pod template spec of the deployment. -/
structure PodSpec where
  containers  : List Container
  volumes     : List Volume
  hostAliases : List HostAlias
deriving DecidableEq, Repr

/-- The Deployment resource as constructed by `DemoApp`. -/
structure DeploymentResource where
  resourceName : String
  replicas     : Nat
  template     : PodSpec
  options      : ResourceOptions
deriving DecidableEq, Repr

/-- One `ports` entry of the service spec. -/
structure ServicePort where
  port       : Int
  targetPort : Int
deriving DecidableEq, Repr

/-- The LoadBalancer Service resource as constructed by `DemoApp`. -/
structure ServiceResource where
  resourceName   : String
  loadBalancerIP : Option String
  ports          : List ServicePort
  type           : String
  options        : ResourceOptions
deriving DecidableEq, Repr

/-- The HorizontalPodAutoscaler resource as constructed by `DemoApp`.
`scaleTargetRefName` holds the deferred `deployment.metadata.name`
reference, modelled by the logical resource name it points at. -/
structure HpaResource where
  resourceName        : String
  metadataName        : String
  scaleTargetRefName  : String
  minReplicas         : Nat
  maxReplicas         : Nat
  targetCPUPercentage : Nat
  options             : ResourceOptions
deriving DecidableEq, Repr

/-- Model of a `k8s.core.v1.PersistentVolumeClaim` handle as consumed by
`DemoApp` (only its `metadata.name` is read). -/
structure PvcHandle where
  metadataName : String
deriving DecidableEq, Repr

/-- `DemoAppArgs` (later revision of `app.ts`).  The TypeScript interface
declares `pvc` as required, but types are erased at runtime, so a missing
claim reaches the constructor as `undefined`; `Option` models that. -/
structure DemoAppArgs where
  provider    : K8sProvider
  imageTag    : String
  staticAppIP : Option String
  pvc         : Option PvcHandle
deriving DecidableEq, Repr

/-! Module-level constants of `app.ts` -/

/-- The fixed whitelist of environment-variable names forwarded to the
workload. -/
def environmentVariableNames : List String :=
  ["MAIL_URL", "ROOT_URL", "MONGO_URL", "STORAGE_PATH", "TZ", "PORT",
   "REFRESH_STATIC_PROFILES", "REFRESH_PERMISSIONS", "EMAIL_SERVICES"]

/-- `environmentVariableNames.map(envName => ({name: envName, value:
process.env[envName]}))`. -/
def environmentVariables (env : Env) : List EnvVar :=
  environmentVariableNames.map (fun envName => { name := envName, value := env envName })

/-- JavaScript string coercion of a possibly-undefined value, as performed
by `parseInt` on its argument. -/
def jsToString : Option String → String
  | none => "undefined"
  | some s => s

/-- Whitespace skipped by JavaScript `parseInt`. -/
def isJsSpace (c : Char) : Bool :=
  c = ' ' || c = '\t' || c = '\n' || c = '\r' || c = '\x0b' || c = '\x0c'

/-- Numeric value of a digit character, as JavaScript reads digits in any
radix (letters continue after `'9'`). -/
def digitVal (c : Char) : Option Nat :=
  if '0' ≤ c ∧ c ≤ '9' then some (c.toNat - '0'.toNat)
  else if 'a' ≤ c ∧ c ≤ 'z' then some (c.toNat - 'a'.toNat + 10)
  else if 'A' ≤ c ∧ c ≤ 'Z' then some (c.toNat - 'A'.toNat + 10)
  else none

/-- The maximal prefix of digits valid in `radix`. -/
def takeDigits (radix : Nat) : List Char → List Nat
  | [] => []
  | c :: rest =>
    match digitVal c with
    | some v => if v < radix then v :: takeDigits radix rest else []
    | none => []

/-- JavaScript `parseInt(s)` (no explicit radix): skip whitespace, read an
optional sign, detect a `0x`/`0X` hex prefix, then read the maximal digit
prefix; `none` models `NaN` (no digit consumed). -/
def jsParseInt (s : String) : Option Int :=
  let cs := s.toList.dropWhile isJsSpace
  let signAndRest : Int × List Char :=
    match cs with
    | '-' :: rest => (-1, rest)
    | '+' :: rest => (1, rest)
    | _ => (1, cs)
  let radixAndRest : Nat × List Char :=
    match signAndRest.2 with
    | '0' :: 'x' :: rest => (16, rest)
    | '0' :: 'X' :: rest => (16, rest)
    | _ => (10, signAndRest.2)
  let ds := takeDigits radixAndRest.1 radixAndRest.2
  if ds.isEmpty then none
  else some (signAndRest.1 * (ds.foldl (fun acc d => acc * radixAndRest.1 + d) 0 : Nat))

/-- JavaScript `a || b` applied to a number-or-NaN left operand: `NaN`
(`none`) and `0` are falsy. -/
def jsOrInt (a : Option Int) (b : Int) : Int :=
  match a with
  | none => b
  | some n => if n = 0 then b else n

/-- `const APP_PORT = parseInt(process.env.PORT!) || 3000;`. -/
def APP_PORT (env : Env) : Int :=
  jsOrInt (jsParseInt (jsToString (env "PORT"))) 3000

/-- `const DATABASE_IP_ADDRESS = process.env.DATABASE_IP_ADDRESS;`. -/
def DATABASE_IP_ADDRESS (env : Env) : Option String :=
  env "DATABASE_IP_ADDRESS"

/-! The `DemoApp` constructor -/

/-- The Deployment created by the `DemoApp` constructor (later revision of
`app.ts`, the one `index.ts` instantiates).  The claim's `metadata.name` is
read via `args.pvc.metadata.name`; at runtime a missing claim is
`undefined` there and that property access throws a `TypeError`, modelled
as `Except.error`. -/
def demoAppDeployment (name : String) (args : DemoAppArgs) (env : Env) :
    Except String DeploymentResource :=
  match args.pvc with
  | none => .error "TypeError: cannot read metadata of undefined pvc"
  | some pvc => .ok
      { resourceName := name ++ "-scaffold-app"
        replicas := 2
        template :=
          { containers :=
              [{ name := "scaffold"
                 image := "docker.io/diavrank/scaffold-meteor-vue:" ++ args.imageTag
                 containerPort := APP_PORT env
                 env := environmentVariables env
                 volumeMounts := [{ mountPath := "/opt/app-files", name := "app-volume" }] }]
            volumes := [{ name := "app-volume", claimName := pvc.metadataName }]
            hostAliases :=
              [{ ip := DATABASE_IP_ADDRESS env
                 hostnames := ["mongo-primary", "mongo-secondary", "mongo-arbiter"] }] }
        options := { provider := some args.provider, parent := true } }

/-- The HorizontalPodAutoscaler created by the `DemoApp` constructor.  The
constructor call passes no options argument, so no provider and no parent
are attached. -/
def demoAppHpa (deployment : DeploymentResource) : HpaResource :=
  { resourceName := "scaffold-app-hpa"
    metadataName := "scaffold-app-hpa"
    scaleTargetRefName := deployment.resourceName
    minReplicas := 2
    maxReplicas := 4
    targetCPUPercentage := 90
    options := { provider := none, parent := false } }

/-- The LoadBalancer Service created by the `DemoApp` constructor. -/
def demoAppService (name : String) (args : DemoAppArgs) (env : Env) : ServiceResource :=
  { resourceName := name ++ "-scaffold-app"
    loadBalancerIP := args.staticAppIP
    ports := [{ port := 80, targetPort := APP_PORT env }]
    type := "LoadBalancer"
    options := { provider := some args.provider, parent := true } }

/-- The address selection of the `DemoApp` constructor, line for line:
`let address = ...ingress[0].hostname; if (name === "gke" || name ===
"aks") { address = ...ingress[0].ip; }`. -/
def resolveAddress (name : String) (ingress : LoadBalancerIngress) : String :=
  let address := ingress.hostname
  if name = "gke" || name = "aks" then ingress.ip else address

/-- `this.appUrl = pulumi.interpolate`.  The deferred
`service.status.loadBalancer.ingress[0]` is passed as the resolved
`ingress` value; the port is read back from `service.spec.ports[0].port`. -/
def demoAppUrl (name : String) (service : ServiceResource)
    (ingress : LoadBalancerIngress) : String :=
  let address := resolveAddress name ingress
  "http://" ++ address ++ ":" ++ toString (service.ports.headD ⟨0, 0⟩).port

/-- The resources a `DemoApp` instantiation registers, bundled. -/
structure DemoAppResources where
  deployment : DeploymentResource
  hpa        : HpaResource
  service    : ServiceResource
deriving DecidableEq, Repr

/-- The full `DemoApp` constructor: deployment, then hpa, then service. -/
def demoApp (name : String) (args : DemoAppArgs) (env : Env) :
    Except String DemoAppResources := do
  let deployment ← demoAppDeployment name args env
  let hpa := demoAppHpa deployment
  let service := demoAppService name args env
  return { deployment := deployment, hpa := hpa, service := service }

/-! The `GkeCluster` component (`gke.ts`) -/

/-- `const storageClassName = "standard";`. -/
def storageClassName : String := "standard"

/-- `const diskName = "appDisk";`. -/
def diskName : String := "appDisk"

/-- The PersistentVolume spec built by `GkeCluster`.  `serverIp` is the
resolved Filestore address `fileStoreInstance.networks[0].ipAddresses[0]`,
and `pvAssignedName` the engine-assigned `metadata.name` of the resource. -/
structure PersistentVolumeResource where
  metadataName     : String
  capacityStorage  : String
  accessModes      : List String
  reclaimPolicy    : String
  storageClassName : String
  nfsPath          : String
  nfsServer        : String
deriving DecidableEq, Repr

/-- The PersistentVolumeClaim spec built by `GkeCluster`. -/
structure PersistentVolumeClaimResource where
  storageClassName : String
  accessModes      : List String
  requestsStorage  : String
  volumeName       : String
deriving DecidableEq, Repr

/-- `new k8s.core.v1.PersistentVolume("app-pv", {...})`. -/
def mkPersistentVolume (diskSize : Nat) (serverIp : String)
    (pvAssignedName : String) : PersistentVolumeResource :=
  { metadataName := pvAssignedName
    capacityStorage := toString diskSize ++ "Gi"
    accessModes := ["ReadWriteMany"]
    reclaimPolicy := "Retain"
    storageClassName := storageClassName
    nfsPath := "/" ++ diskName
    nfsServer := serverIp }

/-- `new k8s.core.v1.PersistentVolumeClaim("app-pvc", {...})`; its
`volumeName` field holds the deferred `persistentVolume.metadata.name`. -/
def mkPersistentVolumeClaim (diskSize : Nat)
    (pv : PersistentVolumeResource) : PersistentVolumeClaimResource :=
  { storageClassName := storageClassName
    accessModes := ["ReadWriteMany"]
    requestsStorage := toString diskSize ++ "Gi"
    volumeName := pv.metadataName }

/-- The resources registered in the `GkeCluster` constructor, as nodes of
its dependency graph. -/
inductive GkeResource
  | fileStoreInstance
  | persistentVolume
  | persistentVolumeClaim
  | password
  | cluster
  | nodePool
  | provider
deriving DecidableEq, Repr

/-- The explicit `dependsOn` lists written in `gke.ts`: the node pool is
created with `dependsOn: [k8sCluster]` and the provider with
`dependsOn: [nodePool]`; no other resource passes `dependsOn`. -/
def explicitDependsOn : GkeResource → List GkeResource
  | .nodePool => [.cluster]
  | .provider => [.nodePool]
  | _ => []

/-- Transitive closure of the explicit `dependsOn` edges. -/
inductive DependsOnTrans : GkeResource → GkeResource → Prop
  | step {a b : GkeResource} : b ∈ explicitDependsOn a → DependsOnTrans a b
  | trans {a b c : GkeResource} :
      DependsOnTrans a b → DependsOnTrans b c → DependsOnTrans a c

/-! The orchestrator (`index.ts`) -/

/-- One entry of the `clusters` list in `index.ts`. -/
structure ClusterTarget where
  name        : String
  provider    : K8sProvider
  staticAppIP : Option String
  pvc         : Option PvcHandle
deriving DecidableEq, Repr

/-- One entry of the exported `appUrls` list.  The `url` field holds the
per-instance deferred `instance.appUrl`, modelled by the function from the
eventually-reported ingress status to the URL string. -/
structure AppUrlEntry where
  name : String
  url  : LoadBalancerIngress → String

/-- JavaScript `a || b` applied to a string-or-undefined left operand:
`undefined` and the empty string are falsy. -/
def jsOrStr (a : Option String) (b : String) : String :=
  match a with
  | none => b
  | some s => if s = "" then b else s

/-- `const appImageTag = process.env.IMAGE_TAG || 'latest';`. -/
def appImageTag (env : Env) : String :=
  jsOrStr (env "IMAGE_TAG") "latest"

/-- The body of the `for (const cluster of clusters)` loop of `index.ts`:
`new app.DemoApp(cluster.name, {...})` followed by the
`{name: cluster.name, url: instance.appUrl}` record. -/
def demoAppInstanceUrl (env : Env) (cluster : ClusterTarget) : AppUrlEntry :=
  let args : DemoAppArgs :=
    { provider := cluster.provider
      imageTag := appImageTag env
      staticAppIP := cluster.staticAppIP
      pvc := cluster.pvc }
  { name := cluster.name
    url := fun ingress =>
      demoAppUrl cluster.name (demoAppService cluster.name args env) ingress }

/-- The `for (const cluster of clusters)` loop of `index.ts`:
`appUrls = appUrls.concat(instanceUrl)` — a synchronous left fold that
appends the pair for each target in turn. -/
def mkAppUrls (clusters : List ClusterTarget) (env : Env) : List AppUrlEntry :=
  clusters.foldl
    (fun appUrls cluster => appUrls ++ [demoAppInstanceUrl env cluster])
    []

/-! Definitions taken from the spec, for comparison -/

/-- Address-field selection policy, as the spec describes it: a sum type
over `{UseHostname, UseIP}`. -/
inductive AddressFieldPolicy
  | useHostname
  | useIP
deriving DecidableEq, Repr

/-- Modelled from the spec: "default to the hostname field; for a fixed
enumerated subset of cluster/provider identifiers (the two identifiers
denoting providers known to populate only the IP field), use the IP field
instead", the two identifiers being "gke" and "aks". -/
def specAddressPolicy (name : String) : AddressFieldPolicy :=
  if name = "gke" ∨ name = "aks" then .useIP else .useHostname

/-- Reading the field a policy selects out of the ingress status. -/
def applyAddressPolicy : AddressFieldPolicy → LoadBalancerIngress → String
  | .useHostname, ingress => ingress.hostname
  | .useIP, ingress => ingress.ip

/-- Modelled from the spec: the output-name ordering the spec asserts —
"it follows completion order of each target's deferred resolution, not
declaration order".  `completion` lists the input positions in the order
their deferred resolutions complete. -/
def specCompletionOrderNames (clusters : List ClusterTarget)
    (completion : List Nat) : List String :=
  completion.filterMap (fun i => (clusters.get? i).map (fun c => c.name))

end K8sScaffold

namespace K8sScaffold

/-! Claims C1 to C10 -/

/-- C1: for every deployed target, the resolved address is the
load-balancer ingress hostname field by default, and the ingress IP field
exactly when the target's name is "gke" or "aks"; the selection is keyed
on the name only — `resolveAddress` coincides with the spec's closed
policy map applied to the name, and that policy selects the IP field iff
the name is one of the two provider identifiers. -/
theorem c1_address_field_selection (name : String) (ingress : LoadBalancerIngress) :
    resolveAddress name ingress = applyAddressPolicy (specAddressPolicy name) ingress ∧
    (specAddressPolicy name = .useIP ↔ (name = "gke" ∨ name = "aks")) := by
  constructor
  · by_cases h1 : name = "gke" <;> by_cases h2 : name = "aks" <;>
      simp [resolveAddress, specAddressPolicy, applyAddressPolicy, h1, h2]
  · by_cases h : name = "gke" ∨ name = "aks" <;>
      simp [specAddressPolicy, h]

/-- C2: the produced AppURL string is `"http://"`, the resolved
address, a colon, and the service's declared external port 80 — and it is
independent of the container/target port (two environments giving
different `APP_PORT`s yield the same URL). -/
theorem c2_app_url_external_port (name : String) (args : DemoAppArgs)
    (env env' : Env) (ingress : LoadBalancerIngress) :
    demoAppUrl name (demoAppService name args env) ingress =
      "http://" ++ resolveAddress name ingress ++ ":80" ∧
    (demoAppService name args env).ports =
      [{ port := 80, targetPort := APP_PORT env }] ∧
    demoAppUrl name (demoAppService name args env) ingress =
      demoAppUrl name (demoAppService name args env') ingress := by
  refine ⟨?_, rfl, ?_⟩
  · show ("http://" ++ resolveAddress name ingress ++ ":") ++ toString (80 : Int) =
      "http://" ++ resolveAddress name ingress ++ ":80"
    rw [String.append_assoc]
    rfl
  · rfl

/-- The error message of the property access `args.pvc.metadata.name` when
`args.pvc` is `undefined`. -/
def pvcTypeError : String := "TypeError: cannot read metadata of undefined pvc"

/-- A concrete process environment with every variable unset. -/
def emptyEnv : Env := fun _ => none

/-- Concrete `DemoAppArgs` with no storage claim supplied. -/
def argsNoPvc : DemoAppArgs :=
  { provider := ⟨"gke"⟩, imageTag := "latest", staticAppIP := none, pvc := none }

/-- Concrete `DemoAppArgs` carrying a storage claim named `app-pvc`. -/
def argsWithPvc : DemoAppArgs :=
  { provider := ⟨"gke"⟩, imageTag := "latest", staticAppIP := none
    pvc := some ⟨"app-pvc"⟩ }

/-- C3 counterexample: deploying with no storage claim does not produce a
mount-free workload — the constructor fails (the `args.pvc.metadata.name`
access throws), so an error is raised and no workload spec exists at all,
contrary to the claim. -/
theorem c3_counterexample :
    demoAppDeployment "gke" argsNoPvc emptyEnv = Except.error pvcTypeError ∧
    demoApp "gke" argsNoPvc emptyEnv = Except.error pvcTypeError := by
  exact ⟨rfl, rfl⟩

/-- C3 (amended): the storage claim argument of the app deployer is
mandatory, not optional — with no claim supplied the deployer fails with a
TypeError instead of producing a storage-free workload, and whenever a
claim is supplied the workload spec always contains the volume mount at
`/opt/app-files` and a volumes entry referencing the claim by name. -/
theorem c3_storage_claim_mandatory (name : String) (args : DemoAppArgs) (env : Env) :
    (args.pvc = none →
      demoAppDeployment name args env = Except.error pvcTypeError) ∧
    (∀ pvc : PvcHandle, args.pvc = some pvc →
      (demoAppDeployment name args env).map
          (fun d => (d.template.containers.map (fun c => c.volumeMounts),
                     d.template.volumes)) =
        Except.ok ([[{ mountPath := "/opt/app-files", name := "app-volume" }]],
                   [{ name := "app-volume", claimName := pvc.metadataName }])) := by
  constructor
  · intro h
    simp [demoAppDeployment, h, pvcTypeError]
  · intro pvc h
    simp [demoAppDeployment, h, Except.map]

/-- C3 witness: the amended claim evaluated at concrete arguments, with and
without a claim. -/
theorem c3_storage_claim_mandatory_witness :
    demoAppDeployment "gke" argsNoPvc emptyEnv = Except.error pvcTypeError ∧
    (demoAppDeployment "gke" argsWithPvc emptyEnv).map
        (fun d => (d.template.containers.map (fun c => c.volumeMounts),
                   d.template.volumes)) =
      Except.ok ([[{ mountPath := "/opt/app-files", name := "app-volume" }]],
                 [{ name := "app-volume", claimName := "app-pvc" }]) :=
  ⟨(c3_storage_claim_mandatory "gke" argsNoPvc emptyEnv).1 rfl,
   (c3_storage_claim_mandatory "gke" argsWithPvc emptyEnv).2 ⟨"app-pvc"⟩ rfl⟩

/-- C4: the Kubernetes provider resource carries `dependsOn: [nodePool]` —
the dedicated node pool, not merely the cluster — and the node pool
carries `dependsOn: [cluster]`, so the provider transitively depends on
the cluster only through the dedicated node pool. -/
theorem c4_provider_depends_on_node_pool :
    explicitDependsOn .provider = [.nodePool] ∧
    explicitDependsOn .nodePool = [.cluster] ∧
    DependsOnTrans .provider .cluster := by
  refine ⟨rfl, rfl, ?_⟩
  exact DependsOnTrans.trans
    (@DependsOnTrans.step .provider .nodePool (by decide))
    (@DependsOnTrans.step .nodePool .cluster (by decide))

/-- C5: the persistent volume and the claim carry the same storage-class
name, the claim references the volume by its metadata name, and the
requested capacity equals the volume capacity — both rendered from the
same configured gigabyte value. -/
theorem c5_volume_claim_agreement (diskSize : Nat) (serverIp pvAssignedName : String) :
    (mkPersistentVolumeClaim diskSize (mkPersistentVolume diskSize serverIp pvAssignedName)).storageClassName =
      (mkPersistentVolume diskSize serverIp pvAssignedName).storageClassName ∧
    (mkPersistentVolumeClaim diskSize (mkPersistentVolume diskSize serverIp pvAssignedName)).volumeName =
      (mkPersistentVolume diskSize serverIp pvAssignedName).metadataName ∧
    (mkPersistentVolumeClaim diskSize (mkPersistentVolume diskSize serverIp pvAssignedName)).requestsStorage =
      (mkPersistentVolume diskSize serverIp pvAssignedName).capacityStorage :=
  ⟨rfl, rfl, rfl⟩

/-- C6: the forwarded environment bag has exactly one entry for each of the
nine whitelisted names and none for any other name, and it is unchanged by
any modification of the process environment outside the whitelist (two
environments agreeing on the whitelisted names yield the same bag). -/
theorem c6_env_whitelist_exact (env env' : Env) (n : String) :
    ((environmentVariables env).countP (fun e => e.name == n) =
      if n ∈ environmentVariableNames then 1 else 0) ∧
    ((∀ m ∈ environmentVariableNames, env m = env' m) →
      environmentVariables env = environmentVariables env') := by
  constructor
  · rw [environmentVariables, List.countP_map]
    show environmentVariableNames.count n = if n ∈ environmentVariableNames then 1 else 0
    exact List.count_eq_of_nodup (by decide)
  · intro h
    unfold environmentVariables
    exact List.map_congr_left (fun m hm => by rw [h m hm])

/-- A concrete environment that sets only a non-whitelisted variable. -/
def envOnlySecret : Env := fun m => if m = "SOME_SECRET" then some "x" else none

/-- C6 witness: the theorem evaluated at two concrete environments that
differ only in the non-whitelisted variable `SOME_SECRET`, and at one
whitelisted name. -/
theorem c6_env_whitelist_exact_witness :
    ((environmentVariables emptyEnv).countP (fun e => e.name == "MAIL_URL") =
      if "MAIL_URL" ∈ environmentVariableNames then 1 else 0) ∧
    environmentVariables emptyEnv = environmentVariables envOnlySecret :=
  ⟨(c6_env_whitelist_exact emptyEnv envOnlySecret "MAIL_URL").1,
   (c6_env_whitelist_exact emptyEnv envOnlySecret "MAIL_URL").2 (by decide)⟩

/-- A concrete environment with no `PORT` set. -/
def envNoPort : Env := fun _ => none

/-- A concrete environment setting `PORT` to the numeric string `0`. -/
def envPortZero : Env := fun m => if m = "PORT" then some "0" else none

/-- A concrete environment setting `PORT` to `8080`. -/
def envPort8080 : Env := fun m => if m = "PORT" then some "8080" else none

/-- C7 counterexample: `PORT` set to the numeric string `"0"` — `parseInt`
reads the number 0, so by the claim the configured value 0 should be used,
yet the effective port is 3000, because 0 is falsy in the `|| 3000`
default. -/
theorem c7_counterexample :
    envPortZero "PORT" = some "0" ∧
    jsParseInt "0" = some 0 ∧
    APP_PORT envPortZero = 3000 ∧
    APP_PORT envPortZero ≠ 0 := by
  refine ⟨by decide, by decide, by decide, by decide⟩

/-- C7 (amended): if `PORT` is unset or `parseInt` finds no leading
integer, or the parsed value is 0 (zero is falsy under `||`), the
effective container port is 3000; otherwise it is the integer `parseInt`
extracts from `PORT` (sign and maximal leading digit prefix, hex after
`0x`). -/
theorem c7_app_port_default (env : Env) :
    (jsParseInt (jsToString (env "PORT")) = none → APP_PORT env = 3000) ∧
    (jsParseInt (jsToString (env "PORT")) = some 0 → APP_PORT env = 3000) ∧
    (∀ n : Int, n ≠ 0 → jsParseInt (jsToString (env "PORT")) = some n → APP_PORT env = n) := by
  refine ⟨fun h => ?_, fun h => ?_, fun n hn h => ?_⟩
  · simp [APP_PORT, jsOrInt, h]
  · simp [APP_PORT, jsOrInt, h]
  · simp [APP_PORT, jsOrInt, h, hn]

/-- C7 witness: the amended claim evaluated at three concrete
environments — `PORT` unset, `PORT=0` and `PORT=8080`. -/
theorem c7_app_port_default_witness :
    APP_PORT envNoPort = 3000 ∧
    APP_PORT envPortZero = 3000 ∧
    APP_PORT envPort8080 = 8080 :=
  ⟨(c7_app_port_default envNoPort).1 (by decide),
   (c7_app_port_default envPortZero).2.1 (by decide),
   (c7_app_port_default envPort8080).2.2 8080 (by decide) (by decide)⟩

/-- Folding a list by appending one mapped element at a time yields the
accumulator followed by the mapped list. -/
theorem foldl_append_singleton {α β : Type} (f : α → β) :
    ∀ (cs : List α) (acc : List β),
      cs.foldl (fun acc' c => acc' ++ [f c]) acc = acc ++ cs.map f
  | [], acc => by simp
  | c :: cs, acc => by
    rw [List.foldl_cons, foldl_append_singleton f cs, List.map_cons]
    simp

/-- A concrete first cluster target. -/
def targetGke : ClusterTarget :=
  { name := "gke", provider := ⟨"gke"⟩, staticAppIP := none, pvc := some ⟨"app-pvc"⟩ }

/-- A concrete second cluster target. -/
def targetAks : ClusterTarget :=
  { name := "aks", provider := ⟨"aks"⟩, staticAppIP := some "1.2.3.4"
    pvc := some ⟨"aks-pvc"⟩ }

/-- A concrete two-target configuration. -/
def twoTargets : List ClusterTarget := [targetGke, targetAks]

/-- C8 counterexample: for the two-target configuration and a completion
schedule in which the second target resolves first, the output name
sequence is the declaration order, not the completion order the claim
asserts — the loop appends synchronously, so completion order never
enters the list construction. -/
theorem c8_counterexample :
    (mkAppUrls twoTargets emptyEnv).map (fun e => e.name) = ["gke", "aks"] ∧
    specCompletionOrderNames twoTargets [1, 0] = ["aks", "gke"] ∧
    (["gke", "aks"] : List String) ≠ ["aks", "gke"] := by
  refine ⟨rfl, by decide, by decide⟩

/-- C8 (amended): the output collection contains exactly one
{cluster-target name, resolved URL} pair per configured target, and its
ordering is the input declaration order — the loop appends synchronously;
only the URL values inside the pairs are deferred. -/
theorem c8_output_declaration_order (clusters : List ClusterTarget) (env : Env) :
    (mkAppUrls clusters env).map (fun e => e.name) = clusters.map (fun c => c.name) ∧
    (mkAppUrls clusters env).length = clusters.length := by
  have h : mkAppUrls clusters env = clusters.map (demoAppInstanceUrl env) := by
    rw [mkAppUrls, foldl_append_singleton]
    simp
  constructor
  · rw [h, List.map_map]
    exact List.map_congr_left (fun c _ => rfl)
  · rw [h, List.length_map]

/-- C9: whenever the database address variable is configured, the pod spec
of the workload contains exactly one host-alias entry, mapping the three
fixed hostnames mongo-primary, mongo-secondary and mongo-arbiter to the
single configured address, injected verbatim. -/
theorem c9_host_aliases (name : String) (args : DemoAppArgs) (env : Env)
    (pvc : PvcHandle) (ip : String)
    (hp : args.pvc = some pvc) (hip : env "DATABASE_IP_ADDRESS" = some ip) :
    (demoAppDeployment name args env).map (fun d => d.template.hostAliases) =
      Except.ok [{ ip := some ip
                   hostnames := ["mongo-primary", "mongo-secondary", "mongo-arbiter"] }] := by
  simp [demoAppDeployment, hp, DATABASE_IP_ADDRESS, hip, Except.map]

/-- A concrete environment configuring only the database address. -/
def envDbIp : Env := fun m => if m = "DATABASE_IP_ADDRESS" then some "10.0.0.9" else none

/-- C9 witness: the host-alias property evaluated at a concrete
environment and concrete arguments. -/
theorem c9_host_aliases_witness :
    (demoAppDeployment "gke" argsWithPvc envDbIp).map (fun d => d.template.hostAliases) =
      Except.ok [{ ip := some "10.0.0.9"
                   hostnames := ["mongo-primary", "mongo-secondary", "mongo-arbiter"] }] :=
  c9_host_aliases "gke" argsWithPvc envDbIp ⟨"app-pvc"⟩ "10.0.0.9" rfl (by decide)

/-- C10: the autoscaler resource always carries the fixed name
scaffold-app-hpa (both the Pulumi resource name and the explicit metadata
name) and is created with no options — no per-target provider, no parent —
so its identity is the same for every target; the deployment and the
service instead carry the per-target provider and a resource name prefixed
by the target name. -/
theorem c10_hpa_not_target_bound (name : String) (args : DemoAppArgs) (env : Env)
    (pvc : PvcHandle) (hp : args.pvc = some pvc) (d d' : DeploymentResource) :
    (demoAppHpa d).resourceName = "scaffold-app-hpa" ∧
    (demoAppHpa d).metadataName = "scaffold-app-hpa" ∧
    (demoAppHpa d).options = { provider := none, parent := false } ∧
    ((demoAppHpa d).resourceName, (demoAppHpa d).metadataName, (demoAppHpa d).options) =
      ((demoAppHpa d').resourceName, (demoAppHpa d').metadataName, (demoAppHpa d').options) ∧
    (demoAppService name args env).resourceName = name ++ "-scaffold-app" ∧
    (demoAppService name args env).options.provider = some args.provider ∧
    (demoAppDeployment name args env).map
        (fun dep => (dep.resourceName, dep.options.provider)) =
      Except.ok (name ++ "-scaffold-app", some args.provider) := by
  refine ⟨rfl, rfl, rfl, rfl, rfl, rfl, ?_⟩
  simp [demoAppDeployment, hp, Except.map]

/-- A concrete deployment resource, as the autoscaler would receive for
the first target. -/
def sampleDeploymentGke : DeploymentResource :=
  { resourceName := "gke-scaffold-app", replicas := 2
    template := { containers := [], volumes := [], hostAliases := [] }
    options := { provider := some ⟨"gke"⟩, parent := true } }

/-- A concrete deployment resource for a second target. -/
def sampleDeploymentAks : DeploymentResource :=
  { sampleDeploymentGke with
      resourceName := "aks-scaffold-app"
      options := { provider := some ⟨"aks"⟩, parent := true } }

/-- C10 witness: the autoscaler identity property evaluated at concrete
arguments and two different concrete deployments. -/
theorem c10_hpa_not_target_bound_witness :
    (demoAppHpa sampleDeploymentGke).resourceName = "scaffold-app-hpa" ∧
    (demoAppHpa sampleDeploymentGke).metadataName = "scaffold-app-hpa" ∧
    (demoAppHpa sampleDeploymentGke).options = { provider := none, parent := false } ∧
    ((demoAppHpa sampleDeploymentGke).resourceName,
     (demoAppHpa sampleDeploymentGke).metadataName,
     (demoAppHpa sampleDeploymentGke).options) =
      ((demoAppHpa sampleDeploymentAks).resourceName,
       (demoAppHpa sampleDeploymentAks).metadataName,
       (demoAppHpa sampleDeploymentAks).options) ∧
    (demoAppService "gke" argsWithPvc emptyEnv).resourceName = "gke" ++ "-scaffold-app" ∧
    (demoAppService "gke" argsWithPvc emptyEnv).options.provider = some argsWithPvc.provider ∧
    (demoAppDeployment "gke" argsWithPvc emptyEnv).map
        (fun dep => (dep.resourceName, dep.options.provider)) =
      Except.ok ("gke" ++ "-scaffold-app", some argsWithPvc.provider) :=
  c10_hpa_not_target_bound "gke" argsWithPvc emptyEnv ⟨"app-pvc"⟩ rfl
    sampleDeploymentGke sampleDeploymentAks

end K8sScaffold
